import Mathlib

/-!
Verification of the `Chatbot` configuration-and-session controller

Shallow embedding of `src/saber/chatbot.py` (the `Chatbot` class): validated
mutable configuration, lazy model/agent construction, the response cycle and
the conversation history.  Python runtime values that can reach the public
methods are modelled by `PyVal`; fallible methods return their (possibly
mutated) state together with an `Except` value, mirroring the fact that a
Python exception does not roll back assignments already executed.

External collaborators (the model factory `init_chat_model`, the agent factory
`create_react_agent` and the asynchronous `agent.ainvoke`) are modelled as an
abstract environment `Env`, constrained only by the external-interface contract
of the specification: the invocation takes the message history and a session
identifier and, on success, returns the updated message list whose last
element is the reply.  The synchronous bridge `_run_async` is modelled on its
main (non-reentrant, single-threaded) path, where it runs the coroutine to
completion and propagates its result or exception unchanged.
-/

/-- Universe of Python runtime values that the tests and the UI pass to the
controller: `None`, `str`, `int`, `float` and `bool`.  (All of them are
hashable, so Python dictionary lookups on them are total.)  Python floats are
modelled as rationals; no claim depends on rounding. -/
inductive PyVal where
  | vnone : PyVal
  | vstr (s : String) : PyVal
  | vint (n : Int) : PyVal
  | vfloat (q : Rat) : PyVal
  | vbool (b : Bool) : PyVal
deriving DecidableEq, Repr

/-- `type(value).__name__` for the modelled values. -/
def PyVal.typeName : PyVal → String
  | .vnone => "NoneType"
  | .vstr _ => "str"
  | .vint _ => "int"
  | .vfloat _ => "float"
  | .vbool _ => "bool"

/-- `isinstance(value, str)`. -/
def PyVal.isStr : PyVal → Bool
  | .vstr _ => true
  | _ => false

/-- `isinstance(value, (int, float))`; `bool` is a subclass of `int` in
Python, so booleans count as numeric. -/
def PyVal.isNumeric : PyVal → Bool
  | .vint _ => true
  | .vfloat _ => true
  | .vbool _ => true
  | _ => false

/-- `float(value)` on a numeric value (`float(True) == 1.0`). -/
def PyVal.toRat : PyVal → Rat
  | .vint n => (n : Rat)
  | .vfloat q => q
  | .vbool b => if b then 1 else 0
  | _ => 0

/-- `value in xs` for a Python collection `xs` of strings: a non-string value
never equals a string. -/
def pyMemStr (v : PyVal) (xs : List String) : Bool :=
  match v with
  | .vstr s => xs.contains s
  | _ => false

/-- `d.get(k, default)` for a Python dictionary with keys and values drawn
from the modelled value universe. -/
def pyDictGet (d : List (PyVal × PyVal)) (k : PyVal) (default : PyVal) : PyVal :=
  match d with
  | [] => default
  | (k1, v1) :: rest => if k1 = k then v1 else pyDictGet rest k default

/-- `d[k] = v` for a Python dictionary: replace the binding of `k` if present,
otherwise add it. -/
def pyDictSet (d : List (PyVal × PyVal)) (k v : PyVal) : List (PyVal × PyVal) :=
  match d with
  | [] => [(k, v)]
  | (k1, v1) :: rest => if k1 = k then (k, v) :: rest else (k1, v1) :: pyDictSet rest k v

/-- A conversation message: `HumanMessage` or `AIMessage` with its content. -/
inductive ChatMsg where
  | human (s : String) : ChatMsg
  | ai (s : String) : ChatMsg
deriving DecidableEq, Repr

/-- Exceptions raised by the controller or its collaborators. -/
inductive SaberErr where
  | typeError (msg : String) : SaberErr
  | valueError (msg : String) : SaberErr
  | externalError (msg : String) : SaberErr
deriving DecidableEq, Repr

/-- Is the outcome a raised `TypeError`? -/
def isTypeError {α : Type} : Except SaberErr α → Bool
  | .error (.typeError _) => true
  | _ => false

/-- Is the outcome a raised `ValueError`? -/
def isValueError {α : Type} : Except SaberErr α → Bool
  | .error (.valueError _) => true
  | _ => false

/-- Did the outcome raise (any exception)? -/
def isErr {α : Type} : Except SaberErr α → Bool
  | .error _ => true
  | .ok _ => false

/-- Opaque handle returned by `init_chat_model`. -/
abbrev ModelHandle := Nat

/-- Opaque handle returned by `create_react_agent`. -/
abbrev AgentHandle := Nat

/-- `Chatbot._SUPPORTED_PROVIDERS` (chatbot.py lines 16-19). -/
def SUPPORTED_PROVIDERS : List String := ["openai", "google_genai"]

/-- `Chatbot._SUPPORTED_MODELS_BY_PROVIDER` (chatbot.py lines 21-34). -/
def SUPPORTED_MODELS_BY_PROVIDER : List (String × List String) :=
  [("openai", ["gpt-4", "gpt-4-turbo", "gpt-4o", "gpt-4o-mini", "gpt-3.5-turbo"]),
   ("google_genai", ["gemini-2.5-pro", "gemini-2.5-flash", "gemini-2.0-flash"])]

/-- Lookup in an association list of string keys with a default
(`dict.get(key, default)` restricted to string keys). -/
def strDictGet (d : List (String × List String)) (k : String) : List String :=
  match d with
  | [] => []
  | (k1, v1) :: rest => if k1 = k then v1 else strDictGet rest k

/-- `self._SUPPORTED_MODELS_BY_PROVIDER.get(self._model_provider, {})`: the
stored provider is an arbitrary object; a non-string key misses every string
key of the dictionary. -/
def modelsForVal (v : PyVal) : List String :=
  match v with
  | .vstr s => strDictGet SUPPORTED_MODELS_BY_PROVIDER s
  | _ => []

/-- The fixed session identifier: `{"configurable": {"thread_id": "1"}}`
(chatbot.py line 251). -/
def threadId : String := "1"

/-- Checkpoint store lookup (`InMemorySaver` state for one thread): the
message list saved under a thread identifier, empty if none yet. -/
def threadGet (cp : List (String × List ChatMsg)) (tid : String) : List ChatMsg :=
  match cp with
  | [] => []
  | (t1, m1) :: rest => if t1 = tid then m1 else threadGet rest tid

/-- Checkpoint store update: save a message list under a thread identifier. -/
def threadSet (cp : List (String × List ChatMsg)) (tid : String)
    (msgs : List ChatMsg) : List (String × List ChatMsg) :=
  match cp with
  | [] => [(tid, msgs)]
  | (t1, m1) :: rest =>
      if t1 = tid then (tid, msgs) :: rest else (t1, m1) :: threadSet rest tid msgs

/-- The controller state: the fields of `Chatbot.__init__` (chatbot.py lines
36-52) that the claims are about.  `checkpoint` is the state of the
`InMemorySaver` created once in `__init__` and shared by every agent the
controller builds; the logger and the event loop carry no claim-relevant
state. -/
structure Chatbot where
  model_provider : PyVal
  model_name : PyVal
  model_temperature : Rat
  system_message : PyVal
  api_key : List (PyVal × PyVal)
  model : Option ModelHandle
  agent : Option AgentHandle
  chat_history : List ChatMsg
  checkpoint : List (String × List ChatMsg)
deriving DecidableEq, Repr

/-- The default system message assigned in `__init__` (contractions expanded
to avoid quoting issues; only its non-emptiness matters to any claim). -/
def defaultSystemMessage : String :=
  "You are an assistant for question-answering tasks. Use the following " ++
  "pieces of retrieved context to answer the question. If you do not know " ++
  "the answer, just say that you do not know. Use three sentences maximum " ++
  "and keep the answer concise."

/-- `Chatbot.__init__` (chatbot.py lines 36-52). -/
def Chatbot.init : Chatbot :=
  { model_provider := PyVal.vnone
    model_name := PyVal.vnone
    model_temperature := 0
    system_message := PyVal.vstr defaultSystemMessage
    api_key := []
    model := Option.none
    agent := Option.none
    chat_history := []
    checkpoint := [] }

/-- `_validate_string` (chatbot.py lines 130-148): type check, then
non-emptiness. -/
def _validate_string (value : PyVal) (varName : String) : Except SaberErr Unit :=
  if ¬ value.isStr then
    Except.error (SaberErr.typeError
      (varName ++ " must be a string, got " ++ value.typeName))
  else if value = PyVal.vstr "" then
    Except.error (SaberErr.valueError (varName ++ " must be a non-empty string."))
  else
    Except.ok ()

/-- `_validate_model_provider` (chatbot.py lines 150-164): string validation,
then membership in the supported-provider set. -/
def _validate_model_provider (model_provider : PyVal) : Except SaberErr Unit :=
  match _validate_string model_provider "Model provider" with
  | Except.error e => Except.error e
  | Except.ok () =>
      if ¬ pyMemStr model_provider SUPPORTED_PROVIDERS then
        Except.error (SaberErr.valueError "Model provider is not supported.")
      else
        Except.ok ()

/-- `_reset_model_and_agent` (chatbot.py lines 166-174). -/
def _reset_model_and_agent (cb : Chatbot) : Chatbot :=
  { cb with model := Option.none, agent := Option.none }

/-- `set_model_provider` (chatbot.py lines 261-278). -/
def set_model_provider (model_provider : PyVal) (cb : Chatbot) :
    Chatbot × Except SaberErr Unit :=
  match (if model_provider ≠ PyVal.vnone then
           _validate_model_provider model_provider
         else Except.ok ()) with
  | Except.error e => (cb, Except.error e)
  | Except.ok () =>
      if model_provider ≠ cb.model_provider then
        (_reset_model_and_agent
          { cb with model_provider := model_provider, model_name := PyVal.vnone },
         Except.ok ())
      else
        (cb, Except.ok ())

/-- `get_model_provider` (chatbot.py lines 280-282). -/
def get_model_provider (cb : Chatbot) : PyVal := cb.model_provider

/-- `set_model_name` (chatbot.py lines 284-312).  For a non-null argument the
source first checks that a provider is set (a `ValueError`), then validates
the string, then checks membership in the supported-model set of the current
provider. -/
def set_model_name (model_name : PyVal) (cb : Chatbot) :
    Chatbot × Except SaberErr Unit :=
  match (if model_name ≠ PyVal.vnone then
           if cb.model_provider = PyVal.vnone then
             Except.error (SaberErr.valueError
               "Model provider must be set before setting the model name.")
           else
             match _validate_string model_name "Model name" with
             | Except.error e => Except.error e
             | Except.ok () =>
                 if ¬ pyMemStr model_name (modelsForVal cb.model_provider) then
                   Except.error (SaberErr.valueError "Model is not supported.")
                 else
                   Except.ok ()
         else Except.ok ()) with
  | Except.error e => (cb, Except.error e)
  | Except.ok () =>
      if model_name ≠ cb.model_name then
        (_reset_model_and_agent { cb with model_name := model_name }, Except.ok ())
      else
        (cb, Except.ok ())

/-- `get_model_name` (chatbot.py lines 314-316). -/
def get_model_name (cb : Chatbot) : PyVal := cb.model_name

/-- `set_model_temperature` (chatbot.py lines 318-341): numeric type check,
coercion with `float()`, closed-interval range check, then conditional
assignment and invalidation. -/
def set_model_temperature (model_temperature : PyVal) (cb : Chatbot) :
    Chatbot × Except SaberErr Unit :=
  if ¬ model_temperature.isNumeric then
    (cb, Except.error (SaberErr.typeError
      ("Model temperature must be a number, got " ++ model_temperature.typeName)))
  else if ¬ (0 ≤ model_temperature.toRat ∧ model_temperature.toRat ≤ 1) then
    (cb, Except.error (SaberErr.valueError
      "Model temperature is out of range [0.0, 1.0]"))
  else if model_temperature.toRat ≠ cb.model_temperature then
    (_reset_model_and_agent { cb with model_temperature := model_temperature.toRat },
     Except.ok ())
  else
    (cb, Except.ok ())

/-- `get_model_temperature` (chatbot.py lines 343-345). -/
def get_model_temperature (cb : Chatbot) : Rat := cb.model_temperature

/-- `set_system_message` (chatbot.py lines 347-359). -/
def set_system_message (system_message : PyVal) (cb : Chatbot) :
    Chatbot × Except SaberErr Unit :=
  match _validate_string system_message "System message" with
  | Except.error e => (cb, Except.error e)
  | Except.ok () =>
      if system_message ≠ cb.system_message then
        (_reset_model_and_agent { cb with system_message := system_message },
         Except.ok ())
      else
        (cb, Except.ok ())

/-- `get_system_message` (chatbot.py lines 361-363). -/
def get_system_message (cb : Chatbot) : PyVal := cb.system_message

/-- `set_api_key` (chatbot.py lines 365-380): validate the provider, then the
key, then store and invalidate only when the key changed. -/
def set_api_key (model_provider api_key : PyVal) (cb : Chatbot) :
    Chatbot × Except SaberErr Unit :=
  match _validate_model_provider model_provider with
  | Except.error e => (cb, Except.error e)
  | Except.ok () =>
      match _validate_string api_key "API key" with
      | Except.error e => (cb, Except.error e)
      | Except.ok () =>
          if api_key ≠ pyDictGet cb.api_key model_provider PyVal.vnone then
            (_reset_model_and_agent
              { cb with api_key := pyDictSet cb.api_key model_provider api_key },
             Except.ok ())
          else
            (cb, Except.ok ())

/-- `get_api_key` (chatbot.py lines 382-384): `self._api_key.get(provider,
None)`.  The source is a single dictionary read with a default: it performs no
mutation and, on the modelled (hashable) value universe, cannot raise, which
the plain (non-`Except`) return type records. -/
def get_api_key (model_provider : PyVal) (cb : Chatbot) : PyVal :=
  pyDictGet cb.api_key model_provider PyVal.vnone

/-- `get_chat_history` (chatbot.py lines 405-411) returns `.copy()` of the
log; the copy of an immutable modelled list is the list itself. -/
def get_chat_history (cb : Chatbot) : List ChatMsg := cb.chat_history

/-- The external collaborators, per the external-interface section of the
specification: a model-construction call taking provider, model name,
temperature and API key; an agent-construction call taking the model handle
and the system prompt (the tool list is always empty and the checkpoint store
is the one owned by the controller, modelled in `Chatbot.checkpoint`); and the
reply the underlying engine of the agent produces for a conversation, or the exception
it raises. -/
structure Env where
  initChatModel : PyVal → PyVal → Rat → PyVal → Except SaberErr ModelHandle
  createReactAgent : ModelHandle → PyVal → Except SaberErr AgentHandle
  agentReply : AgentHandle → List ChatMsg → Except SaberErr String

/-- `_init_model` (chatbot.py lines 176-207): fail fast on a missing
provider, model name or API key, then delegate to `init_chat_model`, whose
exceptions are logged and re-raised unchanged. -/
def _init_model (env : Env) (cb : Chatbot) : Except SaberErr ModelHandle :=
  if cb.model_provider = PyVal.vnone then
    Except.error (SaberErr.valueError "Model provider is not set.")
  else if cb.model_name = PyVal.vnone then
    Except.error (SaberErr.valueError "Model name is not set.")
  else if pyDictGet cb.api_key cb.model_provider PyVal.vnone = PyVal.vnone then
    Except.error (SaberErr.valueError "API key for model provider is not set.")
  else
    env.initChatModel cb.model_provider cb.model_name cb.model_temperature
      (pyDictGet cb.api_key cb.model_provider PyVal.vnone)

/-- `_create_agent` (chatbot.py lines 209-230).  `self._model` is assigned
before `create_react_agent` runs, so the first component of the result is the
state as mutated up to the point of return or raise: a Python exception does
not undo the completed assignment of the model handle. -/
def _create_agent (env : Env) (cb : Chatbot) :
    Chatbot × Except SaberErr AgentHandle :=
  match cb.model with
  | Option.none =>
      match _init_model env cb with
      | Except.error e => (cb, Except.error e)
      | Except.ok m =>
          let cb1 := { cb with model := Option.some m }
          (cb1, env.createReactAgent m cb1.system_message)
  | Option.some m => (cb, env.createReactAgent m cb.system_message)

/-- The conversation the agent processes for one invocation: the messages
checkpointed under the session identifier followed by the input messages. -/
def agentEffectiveInput (cp : List (String × List ChatMsg)) (tid : String)
    (msgs : List ChatMsg) : List ChatMsg :=
  threadGet cp tid ++ msgs

/-- `agent.ainvoke({"messages": msgs}, {"configurable": {"thread_id": tid}})`,
modelled per the external-interface contract of the specification: the agent
appends the input messages to the conversation checkpointed under `tid`,
obtains a reply from the engine for that conversation, and on success returns
the new checkpoint store together with the updated message list whose last
element is the reply; on failure the exception propagates and the checkpoint
is unchanged. -/
def ainvoke (env : Env) (agent : AgentHandle) (cp : List (String × List ChatMsg))
    (tid : String) (msgs : List ChatMsg) :
    Except SaberErr (List (String × List ChatMsg) × List ChatMsg) :=
  match env.agentReply agent (agentEffectiveInput cp tid msgs) with
  | Except.error e => Except.error e
  | Except.ok r =>
      Except.ok (threadSet cp tid (agentEffectiveInput cp tid msgs ++ [ChatMsg.ai r]),
                 agentEffectiveInput cp tid msgs ++ [ChatMsg.ai r])

/-- `response["messages"][-1]`: last element of a Python list, raising
`IndexError` when the list is empty. -/
def pyLast (msgs : List ChatMsg) : Except SaberErr ChatMsg :=
  match msgs.getLast? with
  | Option.some m => Except.ok m
  | Option.none => Except.error (SaberErr.externalError "list index out of range")

/-- The first statement of `_async_get_response` (chatbot.py lines 246-247):
`if self._agent is None: self._agent = self._create_agent()` — the agent is
cached only when `_create_agent` returns; on an exception the handle stays
unset, though a model handle cached inside `_create_agent` is kept. -/
def _ensure_agent (env : Env) (cb : Chatbot) : Chatbot × Except SaberErr AgentHandle :=
  match cb.agent with
  | Option.none =>
      match _create_agent env cb with
      | (cb1, Except.error e) => (cb1, Except.error e)
      | (cb1, Except.ok a) => ({ cb1 with agent := Option.some a }, Except.ok a)
  | Option.some a => (cb, Except.ok a)

/-- The `try` block of `_async_get_response` (chatbot.py lines 248-259):
invoke the agent with the new user message under the fixed session identifier,
append the user message to the history, extract the last response message,
append it too and return it; any exception is logged and re-raised, keeping
the mutations already made. -/
def _invoke_and_append (env : Env) (a : AgentHandle) (user_message : String)
    (cb : Chatbot) : Chatbot × Except SaberErr ChatMsg :=
  match ainvoke env a cb.checkpoint threadId [ChatMsg.human user_message] with
  | Except.error e => (cb, Except.error e)
  | Except.ok (cp1, respMsgs) =>
      match pyLast respMsgs with
      | Except.error e =>
          ({ cb with
               checkpoint := cp1,
               chat_history := cb.chat_history ++ [ChatMsg.human user_message] },
           Except.error e)
      | Except.ok am =>
          ({ cb with
               checkpoint := cp1,
               chat_history := cb.chat_history ++ [ChatMsg.human user_message] ++ [am] },
           Except.ok am)

/-- `_async_get_response` (chatbot.py lines 232-259), as executed to
completion by the synchronous bridge: the agent phase followed by the
invoke-and-append phase, errors propagating with the state mutated so far. -/
def _async_get_response (env : Env) (user_message : String) (cb : Chatbot) :
    Chatbot × Except SaberErr ChatMsg :=
  match _ensure_agent env cb with
  | (cb1, Except.error e) => (cb1, Except.error e)
  | (cb1, Except.ok a) => _invoke_and_append env a user_message cb1

/-- The argument of `get_response`: either a `HumanMessage` with its content,
or any other runtime value. -/
inductive GRArg where
  | msg (s : String) : GRArg
  | nonMsg (v : PyVal) : GRArg
deriving DecidableEq, Repr

/-- `get_response` (chatbot.py lines 386-403): reject a non-`HumanMessage`
argument with a `TypeError`, otherwise run `_async_get_response` through the
bridge, which on the single-threaded path returns its result or re-raises its
exception unchanged. -/
def get_response (env : Env) (user_message : GRArg) (cb : Chatbot) :
    Chatbot × Except SaberErr ChatMsg :=
  match user_message with
  | GRArg.nonMsg v =>
      (cb, Except.error (SaberErr.typeError
        ("user_message must be a HumanMessage, got " ++ v.typeName)))
  | GRArg.msg s => _async_get_response env s cb

/-- Modelled from the spec: `get_supported_providers` is called by the
settings view (src/saber/views/settings.py, `get_provider_list`) but its
definition is not among the provided source files; per the external-interface
section of the specification it returns the set of supported provider
names. -/
def get_supported_providers : List String := SUPPORTED_PROVIDERS

/-- Modelled from the spec: `get_supported_models_by_provider` is called by
the settings view (src/saber/views/settings.py, `get_model_list_by_provider`)
but its definition is not among the provided source files; per the
external-interface section of the specification it returns the set of
supported model names for the provider, and the empty set for an unknown
provider. -/
def get_supported_models_by_provider (provider : String) : List String :=
  strDictGet SUPPORTED_MODELS_BY_PROVIDER provider

/-- States reachable from a fresh controller through the public operations
(every setter and `get_response`, against an arbitrary environment and with
arbitrary arguments), keeping the resulting state whether the call succeeded
or raised.  The getters are pure and do not change the state. -/
inductive Reachable : Chatbot → Prop where
  | init : Reachable Chatbot.init
  | set_provider (v : PyVal) {cb : Chatbot} :
      Reachable cb → Reachable (set_model_provider v cb).1
  | set_name (v : PyVal) {cb : Chatbot} :
      Reachable cb → Reachable (set_model_name v cb).1
  | set_temperature (v : PyVal) {cb : Chatbot} :
      Reachable cb → Reachable (set_model_temperature v cb).1
  | set_system (v : PyVal) {cb : Chatbot} :
      Reachable cb → Reachable (set_system_message v cb).1
  | set_key (p k : PyVal) {cb : Chatbot} :
      Reachable cb → Reachable (set_api_key p k cb).1
  | response (env : Env) (arg : GRArg) {cb : Chatbot} :
      Reachable cb → Reachable (get_response env arg cb).1

/-- Well-formedness of a stored provider: unset, or a supported provider
string. -/
def providerOk (v : PyVal) : Bool :=
  match v with
  | PyVal.vnone => true
  | PyVal.vstr s => SUPPORTED_PROVIDERS.contains s
  | _ => false

/-- The configuration invariant of the specification: a set model name
requires a set provider and membership in the supported-model set of that
provider. -/
def modelNameOk (cb : Chatbot) : Bool :=
  match cb.model_name with
  | PyVal.vnone => true
  | PyVal.vstr m =>
      match cb.model_provider with
      | PyVal.vstr p => (strDictGet SUPPORTED_MODELS_BY_PROVIDER p).contains m
      | _ => false
  | _ => false

/-- Well-formedness of one API-key binding: a supported provider string maps
to a non-empty key string. -/
def keyEntryOk : PyVal × PyVal → Bool
  | (PyVal.vstr p, PyVal.vstr k) =>
      SUPPORTED_PROVIDERS.contains p && decide (k ≠ "")
  | _ => false

/-- Internal well-formedness of a controller state, inductive over the public
operations: typed and validated configuration fields, and the conversation
checkpointed under the fixed session identifier agreeing with the history
log. -/
def stateInv (cb : Chatbot) : Bool :=
  providerOk cb.model_provider &&
  modelNameOk cb &&
  decide (0 ≤ cb.model_temperature) && decide (cb.model_temperature ≤ 1) &&
  (match cb.system_message with
   | PyVal.vstr s => decide (s ≠ "")
   | _ => false) &&
  cb.api_key.all keyEntryOk &&
  decide (threadGet cb.checkpoint threadId = cb.chat_history)

/-- Decidable equality for `Except` outcomes, used to evaluate the embedding
on concrete inputs. -/
instance exceptDecEq {e a : Type} [DecidableEq e] [DecidableEq a] :
    DecidableEq (Except e a) := fun x y =>
  match x, y with
  | Except.ok x1, Except.ok y1 => decidable_of_iff (x1 = y1) (by simp)
  | Except.error x1, Except.error y1 => decidable_of_iff (x1 = y1) (by simp)
  | Except.ok _, Except.error _ => isFalse (by simp)
  | Except.error _, Except.ok _ => isFalse (by simp)

/-! ## Concrete environments and states for evaluation -/

/-- An environment in which every collaborator call succeeds and the engine
always replies "ok". -/
def env0 : Env :=
  { initChatModel := fun _ _ _ _ => Except.ok 0
    createReactAgent := fun _ _ => Except.ok 0
    agentReply := fun _ _ => Except.ok "ok" }

/-- An environment whose model construction fails (e.g. an invalid
credential). -/
def envFail : Env :=
  { initChatModel := fun _ _ _ _ => Except.error (SaberErr.externalError "boom")
    createReactAgent := fun _ _ => Except.error (SaberErr.externalError "boom")
    agentReply := fun _ _ => Except.error (SaberErr.externalError "boom") }

/-- A fully configured controller: provider `google_genai`, model
`gemini-2.5-flash`, API key `k`. -/
def cbConfigured : Chatbot :=
  (set_api_key (PyVal.vstr "google_genai") (PyVal.vstr "k")
    ((set_model_name (PyVal.vstr "gemini-2.5-flash")
      ((set_model_provider (PyVal.vstr "google_genai") Chatbot.init).1)).1)).1

/-! ## Basic lemmas about the modelled containers and validators -/

theorem threadGet_threadSet (cp : List (String × List ChatMsg)) (tid : String)
    (msgs : List ChatMsg) : threadGet (threadSet cp tid msgs) tid = msgs := by
  induction cp with
  | nil => simp [threadSet, threadGet]
  | cons hd tl ih =>
      obtain ⟨t1, m1⟩ := hd
      by_cases h : t1 = tid <;> simp [threadSet, threadGet, h, ih]

theorem pyLast_append (l : List ChatMsg) (a : ChatMsg) :
    pyLast (l ++ [a]) = Except.ok a := by
  simp [pyLast, List.getLast?_concat]

theorem validate_string_ok {v : PyVal} {n : String}
    (h : _validate_string v n = Except.ok ()) : ∃ s, v = PyVal.vstr s ∧ s ≠ "" := by
  cases v <;> simp [_validate_string, PyVal.isStr] at h
  case vstr s =>
    refine ⟨s, rfl, ?_⟩
    intro hs
    subst hs
    simp at h

theorem validate_string_of_ne {s : String} {n : String} (hs : s ≠ "") :
    _validate_string (PyVal.vstr s) n = Except.ok () := by
  simp [_validate_string, PyVal.isStr, hs]

theorem validate_provider_ok {v : PyVal}
    (h : _validate_model_provider v = Except.ok ()) :
    ∃ p, v = PyVal.vstr p ∧ p ∈ SUPPORTED_PROVIDERS := by
  unfold _validate_model_provider at h
  rcases hv : _validate_string v "Model provider" with e | u
  · rw [hv] at h; exact absurd h (by simp)
  · obtain ⟨s, rfl, hs⟩ := validate_string_ok hv
    refine ⟨s, rfl, ?_⟩
    rw [hv] at h
    by_cases hc : s ∈ SUPPORTED_PROVIDERS
    · exact hc
    · simp [pyMemStr, hc] at h

theorem supported_provider_ne_empty {p : String}
    (h : p ∈ SUPPORTED_PROVIDERS) : p ≠ "" := by
  simp [SUPPORTED_PROVIDERS] at h
  rcases h with rfl | rfl <;> decide

theorem validate_provider_of_supported {p : String}
    (h : p ∈ SUPPORTED_PROVIDERS) :
    _validate_model_provider (PyVal.vstr p) = Except.ok () := by
  unfold _validate_model_provider
  rw [validate_string_of_ne (supported_provider_ne_empty h)]
  simp [pyMemStr, h]

theorem pyDictSet_all {d : List (PyVal × PyVal)} {f : PyVal × PyVal → Bool}
    {k v : PyVal} (hd : d.all f = true) (hkv : f (k, v) = true) :
    (pyDictSet d k v).all f = true := by
  induction d with
  | nil => simp [pyDictSet, hkv]
  | cons hd1 tl ih =>
      obtain ⟨k1, v1⟩ := hd1
      simp only [List.all_cons, Bool.and_eq_true] at hd
      by_cases h : k1 = k
      · simp [pyDictSet, h, hkv, hd.2]
      · simp only [pyDictSet, if_neg h, List.all_cons, Bool.and_eq_true]
        exact ⟨hd.1, ih hd.2⟩

theorem pyDictGet_ne_default {d : List (PyVal × PyVal)} {k dflt : PyVal}
    (h : pyDictGet d k dflt ≠ dflt) : (k, pyDictGet d k dflt) ∈ d := by
  induction d with
  | nil => simp [pyDictGet] at h
  | cons hd1 tl ih =>
      obtain ⟨k1, v1⟩ := hd1
      by_cases hk : k1 = k
      · subst hk
        simp [pyDictGet]
      · simp only [pyDictGet, if_neg hk] at h ⊢
        exact List.mem_cons_of_mem _ (ih h)

theorem pyDictGet_default_of_no_key {d : List (PyVal × PyVal)} {k dflt : PyVal}
    (h : ∀ kv ∈ d, kv.1 ≠ k) : pyDictGet d k dflt = dflt := by
  induction d with
  | nil => rfl
  | cons hd1 tl ih =>
      obtain ⟨k1, v1⟩ := hd1
      have hk : k1 ≠ k := h (k1, v1) (List.mem_cons_self _ _)
      simp only [pyDictGet, if_neg hk]
      exact ih fun kv hkv => h kv (List.mem_cons_of_mem _ hkv)

/-! ## Preservation of the internal well-formedness invariant -/

theorem stateInv_providerOk {cb : Chatbot} (h : stateInv cb = true) :
    providerOk cb.model_provider = true := by
  simp only [stateInv, Bool.and_eq_true] at h
  exact h.1.1.1.1.1.1

theorem stateInv_modelNameOk {cb : Chatbot} (h : stateInv cb = true) :
    modelNameOk cb = true := by
  simp only [stateInv, Bool.and_eq_true] at h
  exact h.1.1.1.1.1.2

theorem stateInv_temperature {cb : Chatbot} (h : stateInv cb = true) :
    0 ≤ cb.model_temperature ∧ cb.model_temperature ≤ 1 := by
  simp only [stateInv, Bool.and_eq_true, decide_eq_true_eq] at h
  exact ⟨h.1.1.1.1.2, h.1.1.1.2⟩

theorem stateInv_systemMessage {cb : Chatbot} (h : stateInv cb = true) :
    ∃ s, cb.system_message = PyVal.vstr s ∧ s ≠ "" := by
  simp only [stateInv, Bool.and_eq_true] at h
  have hs := h.1.1.2
  cases hv : cb.system_message with
  | vstr s => exact ⟨s, rfl, by rw [hv] at hs; simpa using hs⟩
  | vnone => rw [hv] at hs; exact absurd hs (by simp)
  | vint n => rw [hv] at hs; exact absurd hs (by simp)
  | vfloat q => rw [hv] at hs; exact absurd hs (by simp)
  | vbool b => rw [hv] at hs; exact absurd hs (by simp)

theorem stateInv_apiKeys {cb : Chatbot} (h : stateInv cb = true) :
    cb.api_key.all keyEntryOk = true := by
  simp only [stateInv, Bool.and_eq_true] at h
  exact h.1.2

theorem stateInv_sync {cb : Chatbot} (h : stateInv cb = true) :
    threadGet cb.checkpoint threadId = cb.chat_history := by
  simp only [stateInv, Bool.and_eq_true, decide_eq_true_eq] at h
  exact h.2

theorem stateInv_of_parts {cb : Chatbot}
    (h1 : providerOk cb.model_provider = true)
    (h2 : modelNameOk cb = true)
    (h3 : 0 ≤ cb.model_temperature) (h4 : cb.model_temperature ≤ 1)
    (h5 : ∃ s, cb.system_message = PyVal.vstr s ∧ s ≠ "")
    (h6 : cb.api_key.all keyEntryOk = true)
    (h7 : threadGet cb.checkpoint threadId = cb.chat_history) :
    stateInv cb = true := by
  obtain ⟨s, hs, hne⟩ := h5
  simp only [stateInv, Bool.and_eq_true, decide_eq_true_eq, hs]
  exact ⟨⟨⟨⟨⟨⟨h1, h2⟩, h3⟩, h4⟩, by simpa using hne⟩, h6⟩, h7⟩

theorem stateInv_set_model_provider (v : PyVal) (cb : Chatbot)
    (h : stateInv cb = true) : stateInv (set_model_provider v cb).1 = true := by
  unfold set_model_provider
  split
  · exact h
  next heq =>
    split
    · have hprov : providerOk v = true := by
        by_cases hv : v = PyVal.vnone
        · subst hv; rfl
        · rw [if_pos hv] at heq
          obtain ⟨p, rfl, hp⟩ := validate_provider_ok heq
          simp [providerOk, hp]
      refine stateInv_of_parts hprov (by simp [modelNameOk, _reset_model_and_agent])
        ?_ ?_ ?_ ?_ ?_ <;>
        simp only [_reset_model_and_agent]
      · exact (stateInv_temperature h).1
      · exact (stateInv_temperature h).2
      · exact stateInv_systemMessage h
      · exact stateInv_apiKeys h
      · exact stateInv_sync h
    · exact h

theorem stateInv_set_model_name (v : PyVal) (cb : Chatbot)
    (h : stateInv cb = true) : stateInv (set_model_name v cb).1 = true := by
  unfold set_model_name
  split
  · exact h
  next heq =>
    split
    · have hname : modelNameOk (_reset_model_and_agent { cb with model_name := v }) = true := by
        by_cases hv : v = PyVal.vnone
        · subst hv; simp [modelNameOk, _reset_model_and_agent]
        · rw [if_pos hv] at heq
          have hps : cb.model_provider ≠ PyVal.vnone := by
            intro hp
            rw [if_pos hp] at heq
            exact absurd heq (by simp)
          rw [if_neg hps] at heq
          rcases hval : _validate_string v "Model name" with e | u
          · rw [hval] at heq; exact absurd heq (by simp)
          · obtain ⟨m, rfl, hm⟩ := validate_string_ok hval
            rw [hval] at heq
            have hmem : pyMemStr (PyVal.vstr m) (modelsForVal cb.model_provider) = true := by
              by_cases hc : pyMemStr (PyVal.vstr m) (modelsForVal cb.model_provider) = true
              · exact hc
              · rw [if_pos (by simp [hc])] at heq
                exact absurd heq (by simp)
            have hpo : providerOk cb.model_provider = true := stateInv_providerOk h
            cases hpv : cb.model_provider with
            | vnone => exact absurd hpv hps
            | vstr p =>
                rw [hpv] at hmem
                simp only [pyMemStr, modelsForVal] at hmem
                simp only [modelNameOk, _reset_model_and_agent, hpv]
                simpa using hmem
            | vint n => rw [hpv] at hpo; exact absurd hpo (by simp [providerOk])
            | vfloat q => rw [hpv] at hpo; exact absurd hpo (by simp [providerOk])
            | vbool b => rw [hpv] at hpo; exact absurd hpo (by simp [providerOk])
      refine stateInv_of_parts ?_ hname ?_ ?_ ?_ ?_ ?_ <;>
        simp only [_reset_model_and_agent]
      · exact stateInv_providerOk h
      · exact (stateInv_temperature h).1
      · exact (stateInv_temperature h).2
      · exact stateInv_systemMessage h
      · exact stateInv_apiKeys h
      · exact stateInv_sync h
    · exact h

theorem stateInv_set_model_temperature (v : PyVal) (cb : Chatbot)
    (h : stateInv cb = true) : stateInv (set_model_temperature v cb).1 = true := by
  unfold set_model_temperature
  split
  · exact h
  · split
    · exact h
    next hrange =>
      split
      · have hr : 0 ≤ v.toRat ∧ v.toRat ≤ 1 := not_not.mp hrange
        refine stateInv_of_parts ?_ ?_ hr.1 hr.2 ?_ ?_ ?_ <;>
          simp only [_reset_model_and_agent]
        · exact stateInv_providerOk h
        · simpa [modelNameOk, _reset_model_and_agent] using stateInv_modelNameOk h
        · exact stateInv_systemMessage h
        · exact stateInv_apiKeys h
        · exact stateInv_sync h
      · exact h

theorem stateInv_set_system_message (v : PyVal) (cb : Chatbot)
    (h : stateInv cb = true) : stateInv (set_system_message v cb).1 = true := by
  unfold set_system_message
  split
  · exact h
  next heq =>
    split
    · obtain ⟨s, rfl, hs⟩ := validate_string_ok heq
      refine stateInv_of_parts ?_ ?_ ?_ ?_ ⟨s, rfl, hs⟩ ?_ ?_ <;>
        simp only [_reset_model_and_agent]
      · exact stateInv_providerOk h
      · simpa [modelNameOk, _reset_model_and_agent] using stateInv_modelNameOk h
      · exact (stateInv_temperature h).1
      · exact (stateInv_temperature h).2
      · exact stateInv_apiKeys h
      · exact stateInv_sync h
    · exact h

theorem stateInv_set_api_key (p k : PyVal) (cb : Chatbot)
    (h : stateInv cb = true) : stateInv (set_api_key p k cb).1 = true := by
  unfold set_api_key
  split
  · exact h
  next hp =>
    split
    · exact h
    next hk =>
      split
      · obtain ⟨ps, rfl, hps⟩ := validate_provider_ok hp
        obtain ⟨ks, rfl, hks⟩ := validate_string_ok hk
        refine stateInv_of_parts ?_ ?_ ?_ ?_ ?_ ?_ ?_ <;>
          simp only [_reset_model_and_agent]
        · exact stateInv_providerOk h
        · simpa [modelNameOk, _reset_model_and_agent] using stateInv_modelNameOk h
        · exact (stateInv_temperature h).1
        · exact (stateInv_temperature h).2
        · exact stateInv_systemMessage h
        · exact pyDictSet_all (stateInv_apiKeys h) (by simp [keyEntryOk, hps, hks])
        · exact stateInv_sync h
      · exact h

/-! ## The response cycle -/

theorem _create_agent_state (env : Env) (cb : Chatbot) :
    (_create_agent env cb).1 = cb ∨
    ∃ m, (_create_agent env cb).1 = { cb with model := Option.some m } := by
  unfold _create_agent
  cases cb.model with
  | none =>
      cases _init_model env cb with
      | error e => exact Or.inl rfl
      | ok m => exact Or.inr ⟨m, rfl⟩
  | some m => exact Or.inl rfl

theorem _ensure_agent_state (env : Env) (cb : Chatbot) :
    ∃ mo ag, (_ensure_agent env cb).1 = { cb with model := mo, agent := ag } := by
  unfold _ensure_agent
  split
  · rcases hca : _create_agent env cb with ⟨cbA, res⟩
    have hA : (_create_agent env cb).1 = cbA := by rw [hca]
    rcases _create_agent_state env cb with hcb | ⟨m, hm⟩
    · rw [hA] at hcb
      subst hcb
      cases res with
      | error e => exact ⟨cbA.model, cbA.agent, rfl⟩
      | ok a => exact ⟨cbA.model, Option.some a, rfl⟩
    · rw [hA] at hm
      subst hm
      cases res with
      | error e => exact ⟨Option.some m, cb.agent, rfl⟩
      | ok a => exact ⟨Option.some m, Option.some a, rfl⟩
  · exact ⟨cb.model, cb.agent, rfl⟩

theorem _invoke_and_append_cases (env : Env) (a : AgentHandle) (s : String)
    (cbX : Chatbot) :
    (∃ e, _invoke_and_append env a s cbX = (cbX, Except.error e)) ∨
    (∃ r, _invoke_and_append env a s cbX =
       ({ cbX with
            checkpoint := threadSet cbX.checkpoint threadId
              (threadGet cbX.checkpoint threadId ++ [ChatMsg.human s] ++ [ChatMsg.ai r]),
            chat_history := cbX.chat_history ++ [ChatMsg.human s] ++ [ChatMsg.ai r] },
        Except.ok (ChatMsg.ai r))) := by
  unfold _invoke_and_append ainvoke agentEffectiveInput
  cases hr : env.agentReply a (threadGet cbX.checkpoint threadId ++ [ChatMsg.human s]) with
  | error e => exact Or.inl ⟨e, rfl⟩
  | ok r =>
      refine Or.inr ⟨r, ?_⟩
      simp only [pyLast_append]

/-- Full case analysis of one response cycle: the call either raises, leaving
every field but the cached model/agent handles unchanged, or succeeds with a
reply `r`, appending the user message and the reply both to the conversation
checkpointed under the session identifier and to the history log. -/
theorem async_get_response_cases (env : Env) (s : String) (cb : Chatbot) :
    ∃ mo ag,
      (∃ e, _async_get_response env s cb =
         ({ cb with model := mo, agent := ag }, Except.error e)) ∨
      (∃ r, _async_get_response env s cb =
         ({ cb with
              model := mo,
              agent := ag,
              checkpoint := threadSet cb.checkpoint threadId
                (threadGet cb.checkpoint threadId ++ [ChatMsg.human s] ++ [ChatMsg.ai r]),
              chat_history := cb.chat_history ++ [ChatMsg.human s] ++ [ChatMsg.ai r] },
          Except.ok (ChatMsg.ai r))) := by
  unfold _async_get_response
  rcases hEA : _ensure_agent env cb with ⟨cb1, res⟩
  obtain ⟨mo, ag, h1⟩ := _ensure_agent_state env cb
  rw [hEA] at h1
  simp only at h1
  subst h1
  cases res with
  | error e => exact ⟨mo, ag, Or.inl ⟨e, rfl⟩⟩
  | ok a =>
      rcases _invoke_and_append_cases env a s { cb with model := mo, agent := ag } with
        ⟨e, he⟩ | ⟨r, hr⟩
      · exact ⟨mo, ag, Or.inl ⟨e, he⟩⟩
      · exact ⟨mo, ag, Or.inr ⟨r, hr⟩⟩

theorem stateInv_get_response (env : Env) (arg : GRArg) (cb : Chatbot)
    (h : stateInv cb = true) : stateInv (get_response env arg cb).1 = true := by
  cases arg with
  | nonMsg v => exact h
  | msg s =>
      show stateInv (_async_get_response env s cb).1 = true
      obtain ⟨mo, ag, hcase⟩ := async_get_response_cases env s cb
      rcases hcase with ⟨e, heq⟩ | ⟨r, heq⟩
      · rw [heq]
        show stateInv { cb with model := mo, agent := ag } = true
        refine stateInv_of_parts ?_ ?_ ?_ ?_ ?_ ?_ ?_
        · exact stateInv_providerOk h
        · exact stateInv_modelNameOk h
        · exact (stateInv_temperature h).1
        · exact (stateInv_temperature h).2
        · exact stateInv_systemMessage h
        · exact stateInv_apiKeys h
        · exact stateInv_sync h
      · rw [heq]
        show stateInv
          { cb with
              model := mo,
              agent := ag,
              checkpoint := threadSet cb.checkpoint threadId
                (threadGet cb.checkpoint threadId ++ [ChatMsg.human s] ++ [ChatMsg.ai r]),
              chat_history := cb.chat_history ++ [ChatMsg.human s] ++ [ChatMsg.ai r] } = true
        refine stateInv_of_parts ?_ ?_ ?_ ?_ ?_ ?_ ?_
        · show providerOk cb.model_provider = true
          exact stateInv_providerOk h
        · show modelNameOk
            { cb with
                model := mo,
                agent := ag,
                checkpoint := threadSet cb.checkpoint threadId
                  (threadGet cb.checkpoint threadId ++ [ChatMsg.human s] ++ [ChatMsg.ai r]),
                chat_history := cb.chat_history ++ [ChatMsg.human s] ++ [ChatMsg.ai r] } = true
          simpa [modelNameOk] using stateInv_modelNameOk h
        · show 0 ≤ cb.model_temperature
          exact (stateInv_temperature h).1
        · show cb.model_temperature ≤ 1
          exact (stateInv_temperature h).2
        · show ∃ s1, cb.system_message = PyVal.vstr s1 ∧ s1 ≠ ""
          exact stateInv_systemMessage h
        · show cb.api_key.all keyEntryOk = true
          exact stateInv_apiKeys h
        · show threadGet (threadSet cb.checkpoint threadId
              (threadGet cb.checkpoint threadId ++ [ChatMsg.human s] ++ [ChatMsg.ai r]))
              threadId =
            cb.chat_history ++ [ChatMsg.human s] ++ [ChatMsg.ai r]
          rw [threadGet_threadSet, stateInv_sync h]

theorem reachable_stateInv {cb : Chatbot} (h : Reachable cb) : stateInv cb = true := by
  induction h with
  | init => decide
  | set_provider v _ ih => exact stateInv_set_model_provider v _ ih
  | set_name v _ ih => exact stateInv_set_model_name v _ ih
  | set_temperature v _ ih => exact stateInv_set_model_temperature v _ ih
  | set_system v _ ih => exact stateInv_set_system_message v _ ih
  | set_key p k _ ih => exact stateInv_set_api_key p k _ ih
  | response env arg _ ih => exact stateInv_get_response env arg _ ih

/-! ## Frame lemmas: a setter either leaves the state alone or succeeds -/

theorem set_model_provider_frame (v : PyVal) (cb : Chatbot) :
    (set_model_provider v cb).1 = cb ∨ (set_model_provider v cb).2 = Except.ok () := by
  unfold set_model_provider
  split
  · exact Or.inl rfl
  · split
    · exact Or.inr rfl
    · exact Or.inl rfl

theorem set_model_name_frame (v : PyVal) (cb : Chatbot) :
    (set_model_name v cb).1 = cb ∨ (set_model_name v cb).2 = Except.ok () := by
  unfold set_model_name
  split
  · exact Or.inl rfl
  · split
    · exact Or.inr rfl
    · exact Or.inl rfl

theorem set_model_temperature_frame (v : PyVal) (cb : Chatbot) :
    (set_model_temperature v cb).1 = cb ∨
    (set_model_temperature v cb).2 = Except.ok () := by
  unfold set_model_temperature
  split
  · exact Or.inl rfl
  · split
    · exact Or.inl rfl
    · split
      · exact Or.inr rfl
      · exact Or.inl rfl

theorem set_system_message_frame (v : PyVal) (cb : Chatbot) :
    (set_system_message v cb).1 = cb ∨
    (set_system_message v cb).2 = Except.ok () := by
  unfold set_system_message
  split
  · exact Or.inl rfl
  · split
    · exact Or.inr rfl
    · exact Or.inl rfl

theorem set_api_key_frame (p k : PyVal) (cb : Chatbot) :
    (set_api_key p k cb).1 = cb ∨ (set_api_key p k cb).2 = Except.ok () := by
  unfold set_api_key
  split
  · exact Or.inl rfl
  · split
    · exact Or.inl rfl
    · split
      · exact Or.inr rfl
      · exact Or.inl rfl

theorem frame_of_err {r : Chatbot × Except SaberErr Unit}
    (hframe : r.1 = cb ∨ r.2 = Except.ok ()) (herr : isErr r.2 = true) :
    r.1 = cb := by
  rcases hframe with h | h
  · exact h
  · rw [h] at herr
    exact absurd herr (by simp [isErr])

/-! ## Error-kind helpers -/

theorem isTypeError_not_isValueError {α : Type} {r : Except SaberErr α}
    (h : isTypeError r = true) : isValueError r = false := by
  cases r with
  | ok a => rfl
  | error e => cases e <;> simp [isTypeError, isValueError] at h ⊢

theorem validate_string_type_err {v : PyVal} {n : String} (h : v.isStr = false) :
    _validate_string v n =
      Except.error (SaberErr.typeError
        (n ++ " must be a string, got " ++ v.typeName)) := by
  unfold _validate_string
  rw [if_pos (by simp [h])]

theorem validate_provider_type_err {v : PyVal} (h : v.isStr = false) :
    ∃ m, _validate_model_provider v = Except.error (SaberErr.typeError m) := by
  refine ⟨"Model provider" ++ " must be a string, got " ++ v.typeName, ?_⟩
  unfold _validate_model_provider
  rw [validate_string_type_err h]

/-! ## The claims -/

/-- C1: for every call of `get_response`, if the call raises (a type error on
a non-message argument, a value error from agent construction, or any
exception during agent invocation), the conversation history is exactly as it
was before the call; if the call succeeds, exactly two entries are appended,
the user message followed by the returned assistant message (both occur or
neither). -/
theorem C1_history_atomicity (env : Env) (arg : GRArg) (cb : Chatbot) :
    (isErr (get_response env arg cb).2 = true →
       ((get_response env arg cb).1).chat_history = cb.chat_history) ∧
    (∀ am, (get_response env arg cb).2 = Except.ok am →
       ∃ s, arg = GRArg.msg s ∧
         ((get_response env arg cb).1).chat_history =
           cb.chat_history ++ [ChatMsg.human s, am]) := by
  cases arg with
  | nonMsg v =>
      constructor
      · intro _
        rfl
      · intro am ham
        exact absurd ham (by simp [get_response])
  | msg s =>
      obtain ⟨mo, ag, hcase⟩ := async_get_response_cases env s cb
      rcases hcase with ⟨e, heq⟩ | ⟨r, heq⟩
      · constructor
        · intro _
          show ((_async_get_response env s cb).1).chat_history = cb.chat_history
          rw [heq]
        · intro am ham
          rw [show (get_response env (GRArg.msg s) cb).2 =
                (_async_get_response env s cb).2 from rfl, heq] at ham
          exact absurd ham (by simp)
      · constructor
        · intro herr
          rw [show (get_response env (GRArg.msg s) cb).2 =
                (_async_get_response env s cb).2 from rfl, heq] at herr
          exact absurd herr (by simp [isErr])
        · intro am ham
          rw [show (get_response env (GRArg.msg s) cb).2 =
                (_async_get_response env s cb).2 from rfl, heq] at ham
          refine ⟨s, rfl, ?_⟩
          show ((_async_get_response env s cb).1).chat_history =
            cb.chat_history ++ [ChatMsg.human s, am]
          rw [heq]
          simp at ham
          rw [← ham]
          simp

/-- Witness for C1: with a failing engine the history is unchanged, and with
a succeeding engine the user message and the reply are appended. -/
theorem C1_history_atomicity_witness :
    ((get_response envFail (GRArg.msg "hi") cbConfigured).1).chat_history =
        cbConfigured.chat_history ∧
    (∃ s, GRArg.msg "hi" = GRArg.msg s ∧
      ((get_response env0 (GRArg.msg "hi") cbConfigured).1).chat_history =
        cbConfigured.chat_history ++ [ChatMsg.human s, ChatMsg.ai "ok"]) :=
  ⟨(C1_history_atomicity envFail (GRArg.msg "hi") cbConfigured).1 (by decide),
   (C1_history_atomicity env0 (GRArg.msg "hi") cbConfigured).2
     (ChatMsg.ai "ok") (by decide)⟩

/-- C2: for every successful call of `get_response(user_message)`, the agent
is invoked through the bridge with the full conversation history so far plus
the new user message (`_async_get_response` calls `ainvoke` on
`cb.checkpoint` with `[ChatMsg.human s]`, and the conversation the agent then
processes is `agentEffectiveInput cb.checkpoint threadId [ChatMsg.human s]`),
addressed to the fixed session identifier `threadId = "1"` of the controller. -/
theorem C2_full_conversation (env : Env) (cb : Chatbot) (s : String)
    (am : ChatMsg) (hreach : Reachable cb)
    (_hok : (get_response env (GRArg.msg s) cb).2 = Except.ok am) :
    agentEffectiveInput cb.checkpoint threadId [ChatMsg.human s] =
      cb.chat_history ++ [ChatMsg.human s] := by
  have hsync := stateInv_sync (reachable_stateInv hreach)
  unfold agentEffectiveInput
  rw [hsync]

/-- Witness for C2: a configured controller with a succeeding engine. -/
theorem C2_full_conversation_witness :
    agentEffectiveInput cbConfigured.checkpoint threadId [ChatMsg.human "hi"] =
      cbConfigured.chat_history ++ [ChatMsg.human "hi"] :=
  C2_full_conversation env0 cbConfigured "hi" (ChatMsg.ai "ok")
    (Reachable.set_key (PyVal.vstr "google_genai") (PyVal.vstr "k")
      (Reachable.set_name (PyVal.vstr "gemini-2.5-flash")
        (Reachable.set_provider (PyVal.vstr "google_genai") Reachable.init)))
    (by decide)

/-- C3 counterexample: on a fresh controller (provider unset), calling
`set_model_name` with the wrongly-typed argument `12345` (an `int`) raises a
`ValueError` ("Model provider must be set before setting the model name."),
not a `TypeError`: the provider-presence value check runs before the type
check, so a wrongly-typed argument can produce a value error. -/
theorem C3_counterexample :
    isValueError (set_model_name (PyVal.vint 12345) Chatbot.init).2 = true ∧
    isTypeError (set_model_name (PyVal.vint 12345) Chatbot.init).2 = false := by
  decide

/-- C3 (amended): for every setter, a wrongly-typed argument raises a type
error and type checks precede value checks on the same argument, with two
sequencing caveats forced by the source: `set_model_name` checks that a
provider is set (a value error) before checking the type of its argument, and
`set_api_key` validates the provider argument completely before looking at
the key argument; every validation failure leaves the whole state (hence all
configuration fields) unchanged. -/
theorem C3_amended (cb : Chatbot) :
    (∀ v, v.isStr = false → v ≠ PyVal.vnone →
        isTypeError (set_model_provider v cb).2 = true) ∧
    (∀ v, isValueError (set_model_provider v cb).2 = true → v.isStr = true) ∧
    (∀ v, cb.model_provider ≠ PyVal.vnone → v.isStr = false → v ≠ PyVal.vnone →
        isTypeError (set_model_name v cb).2 = true) ∧
    (∀ v, cb.model_provider ≠ PyVal.vnone →
        isValueError (set_model_name v cb).2 = true → v.isStr = true) ∧
    (∀ v, cb.model_provider = PyVal.vnone → v ≠ PyVal.vnone →
        isValueError (set_model_name v cb).2 = true) ∧
    (∀ v, v.isNumeric = false → isTypeError (set_model_temperature v cb).2 = true) ∧
    (∀ v, isValueError (set_model_temperature v cb).2 = true → v.isNumeric = true) ∧
    (∀ v, v.isStr = false → isTypeError (set_system_message v cb).2 = true) ∧
    (∀ v, isValueError (set_system_message v cb).2 = true → v.isStr = true) ∧
    (∀ p k, p.isStr = false → isTypeError (set_api_key p k cb).2 = true) ∧
    (∀ p k, _validate_model_provider p = Except.ok () → k.isStr = false →
        isTypeError (set_api_key p k cb).2 = true) ∧
    (∀ p k, isValueError (set_api_key p k cb).2 = true → p.isStr = true) ∧
    (∀ v, isErr (set_model_provider v cb).2 = true → (set_model_provider v cb).1 = cb) ∧
    (∀ v, isErr (set_model_name v cb).2 = true → (set_model_name v cb).1 = cb) ∧
    (∀ v, isErr (set_model_temperature v cb).2 = true →
        (set_model_temperature v cb).1 = cb) ∧
    (∀ v, isErr (set_system_message v cb).2 = true → (set_system_message v cb).1 = cb) ∧
    (∀ p k, isErr (set_api_key p k cb).2 = true → (set_api_key p k cb).1 = cb) := by
  have hprovT : ∀ v : PyVal, v.isStr = false → v ≠ PyVal.vnone →
      isTypeError (set_model_provider v cb).2 = true := by
    intro v hs hn
    obtain ⟨m, hm⟩ := validate_provider_type_err hs
    unfold set_model_provider
    rw [if_pos hn, hm]
    rfl
  have hnameT : ∀ v : PyVal, cb.model_provider ≠ PyVal.vnone → v.isStr = false →
      v ≠ PyVal.vnone → isTypeError (set_model_name v cb).2 = true := by
    intro v hp hs hn
    unfold set_model_name
    rw [if_pos hn, if_neg hp, validate_string_type_err hs]
    rfl
  have htempT : ∀ v : PyVal, v.isNumeric = false →
      isTypeError (set_model_temperature v cb).2 = true := by
    intro v hnum
    unfold set_model_temperature
    rw [if_pos (by simp [hnum])]
    rfl
  have hsysT : ∀ v : PyVal, v.isStr = false →
      isTypeError (set_system_message v cb).2 = true := by
    intro v hs
    unfold set_system_message
    rw [validate_string_type_err hs]
    rfl
  have hkeyT1 : ∀ p k : PyVal, p.isStr = false →
      isTypeError (set_api_key p k cb).2 = true := by
    intro p k hs
    obtain ⟨m, hm⟩ := validate_provider_type_err hs
    unfold set_api_key
    rw [hm]
    rfl
  have hkeyT2 : ∀ p k : PyVal, _validate_model_provider p = Except.ok () →
      k.isStr = false → isTypeError (set_api_key p k cb).2 = true := by
    intro p k hp hs
    unfold set_api_key
    rw [hp, validate_string_type_err hs]
    rfl
  refine ⟨hprovT, ?_, hnameT, ?_, ?_, htempT, ?_, hsysT, ?_, hkeyT1, hkeyT2, ?_,
    ?_, ?_, ?_, ?_, ?_⟩
  · intro v hval
    by_cases hs : v.isStr = true
    · exact hs
    · have hn : v ≠ PyVal.vnone → False := by
        intro hn
        have := hprovT v (by simpa using hs) hn
        rw [isTypeError_not_isValueError this] at hval
        exact absurd hval (by simp)
      by_cases hvn : v = PyVal.vnone
      · subst hvn
        unfold set_model_provider at hval
        rw [if_neg (by simp)] at hval
        simp only at hval
        split at hval <;> exact absurd hval (by simp [isValueError])
      · exact absurd hvn (fun hx => hn hx)
  · intro v hp hval
    by_cases hs : v.isStr = true
    · exact hs
    · by_cases hvn : v = PyVal.vnone
      · subst hvn
        unfold set_model_name at hval
        rw [if_neg (by simp)] at hval
        simp only at hval
        split at hval <;> exact absurd hval (by simp [isValueError])
      · have := hnameT v hp (by simpa using hs) hvn
        rw [isTypeError_not_isValueError this] at hval
        exact absurd hval (by simp)
  · intro v hp hn
    unfold set_model_name
    rw [if_pos hn, if_pos hp]
    rfl
  · intro v hval
    by_cases hnum : v.isNumeric = true
    · exact hnum
    · have := htempT v (by simpa using hnum)
      rw [isTypeError_not_isValueError this] at hval
      exact absurd hval (by simp)
  · intro v hval
    by_cases hs : v.isStr = true
    · exact hs
    · have := hsysT v (by simpa using hs)
      rw [isTypeError_not_isValueError this] at hval
      exact absurd hval (by simp)
  · intro p k hval
    by_cases hs : p.isStr = true
    · exact hs
    · have := hkeyT1 p k (by simpa using hs)
      rw [isTypeError_not_isValueError this] at hval
      exact absurd hval (by simp)
  · intro v herr
    exact frame_of_err (set_model_provider_frame v cb) herr
  · intro v herr
    exact frame_of_err (set_model_name_frame v cb) herr
  · intro v herr
    exact frame_of_err (set_model_temperature_frame v cb) herr
  · intro v herr
    exact frame_of_err (set_system_message_frame v cb) herr
  · intro p k herr
    exact frame_of_err (set_api_key_frame p k cb) herr

/-- Witness for the amended C3: concrete wrongly-typed and invalid arguments
on a fresh controller. -/
theorem C3_amended_witness :
    isTypeError (set_model_provider (PyVal.vint 7) Chatbot.init).2 = true ∧
    isValueError (set_model_name (PyVal.vint 12345) Chatbot.init).2 = true ∧
    isTypeError (set_model_temperature (PyVal.vstr "hot") Chatbot.init).2 = true ∧
    isTypeError (set_system_message PyVal.vnone Chatbot.init).2 = true ∧
    isTypeError (set_api_key (PyVal.vstr "openai") (PyVal.vint 3) Chatbot.init).2 = true ∧
    (set_model_provider (PyVal.vstr "bogus") Chatbot.init).1 = Chatbot.init :=
  ⟨(C3_amended Chatbot.init).1 (PyVal.vint 7) (by decide) (by decide),
   (C3_amended Chatbot.init).2.2.2.2.1 (PyVal.vint 12345) (by decide) (by decide),
   (C3_amended Chatbot.init).2.2.2.2.2.1 (PyVal.vstr "hot") (by decide),
   (C3_amended Chatbot.init).2.2.2.2.2.2.2.1 PyVal.vnone (by decide),
   (C3_amended Chatbot.init).2.2.2.2.2.2.2.2.2.2.1 (PyVal.vstr "openai")
     (PyVal.vint 3) (by decide) (by decide),
   (C3_amended Chatbot.init).2.2.2.2.2.2.2.2.2.2.2.2.1 (PyVal.vstr "bogus")
     (by decide)⟩

/-- C4: for every state and every accepted argument of `set_model_provider`
that differs from the current provider (including null), the call sets the
provider to the new value, clears the model name to unset, invalidates the
cached model and agent handles, and changes nothing else. -/
theorem C4_provider_change (cb : Chatbot) (v : PyVal)
    (hacc : v = PyVal.vnone ∨ _validate_model_provider v = Except.ok ())
    (hne : v ≠ cb.model_provider) :
    set_model_provider v cb =
      ({ cb with
           model_provider := v,
           model_name := PyVal.vnone,
           model := Option.none,
           agent := Option.none },
       Except.ok ()) := by
  unfold set_model_provider
  have hval : (if v ≠ PyVal.vnone then _validate_model_provider v
               else Except.ok ()) = Except.ok () := by
    rcases hacc with rfl | hok
    · simp
    · by_cases hv : v = PyVal.vnone
      · simp [hv]
      · rw [if_pos hv]
        exact hok
  rw [hval]
  simp only
  rw [if_pos hne]
  rfl

/-- Witness for C4: switching a fresh controller to "openai". -/
theorem C4_provider_change_witness :
    set_model_provider (PyVal.vstr "openai") Chatbot.init =
      ({ Chatbot.init with
           model_provider := PyVal.vstr "openai",
           model_name := PyVal.vnone,
           model := Option.none,
           agent := Option.none },
       Except.ok ()) :=
  C4_provider_change Chatbot.init (PyVal.vstr "openai")
    (Or.inr (by decide)) (by decide)

/-- C5: the invariant "model_name is set implies model_provider is set and
model_name is a member of the supported-model set of the current provider" holds
initially and is preserved by every public operation of the controller
(`Reachable` closes the initial state under all setters and `get_response`,
keeping the state of raising calls as well). -/
theorem C5_name_provider_invariant (cb : Chatbot) (h : Reachable cb) :
    modelNameOk cb = true :=
  stateInv_modelNameOk (reachable_stateInv h)

/-- Witness for C5: the invariant holds at a concrete reachable state. -/
theorem C5_name_provider_invariant_witness : modelNameOk cbConfigured = true :=
  C5_name_provider_invariant cbConfigured
    (Reachable.set_key (PyVal.vstr "google_genai") (PyVal.vstr "k")
      (Reachable.set_name (PyVal.vstr "gemini-2.5-flash")
        (Reachable.set_provider (PyVal.vstr "google_genai") Reachable.init)))

/-- C6: `set_model_temperature` accepts any numeric value, coerces it to
floating point, and succeeds exactly when the coerced value lies in the
closed interval [0.0, 1.0]; an out-of-range numeric value raises a value
error, a non-numeric value raises a type error, and in either failure case
the state (hence the stored temperature) is unchanged. -/
theorem C6_temperature_range (cb : Chatbot) (v : PyVal) :
    (v.isNumeric = true → 0 ≤ v.toRat → v.toRat ≤ 1 →
       (set_model_temperature v cb).2 = Except.ok () ∧
       ((set_model_temperature v cb).1).model_temperature = v.toRat) ∧
    (v.isNumeric = true → ¬ (0 ≤ v.toRat ∧ v.toRat ≤ 1) →
       isValueError (set_model_temperature v cb).2 = true ∧
       (set_model_temperature v cb).1 = cb) ∧
    (v.isNumeric = false →
       isTypeError (set_model_temperature v cb).2 = true ∧
       (set_model_temperature v cb).1 = cb) := by
  refine ⟨?_, ?_, ?_⟩
  · intro hnum hlo hhi
    unfold set_model_temperature
    rw [if_neg (by simp [hnum]), if_neg (by simp [hlo, hhi])]
    by_cases hch : v.toRat ≠ cb.model_temperature
    · rw [if_pos hch]
      exact ⟨rfl, rfl⟩
    · rw [if_neg hch]
      exact ⟨rfl, (not_not.mp hch).symm⟩
  · intro hnum hout
    unfold set_model_temperature
    rw [if_neg (by simp [hnum]), if_pos (by simpa using hout)]
    exact ⟨rfl, rfl⟩
  · intro hnum
    unfold set_model_temperature
    rw [if_pos (by simp [hnum])]
    exact ⟨rfl, rfl⟩

/-- Witness for C6: both endpoints succeed, an out-of-range value raises a
value error, a string raises a type error, neither mutates the state. -/
theorem C6_temperature_range_witness :
    ((set_model_temperature (PyVal.vfloat 1) Chatbot.init).2 = Except.ok () ∧
      ((set_model_temperature (PyVal.vfloat 1) Chatbot.init).1).model_temperature =
        (PyVal.vfloat 1).toRat) ∧
    ((set_model_temperature (PyVal.vfloat 0) Chatbot.init).2 = Except.ok () ∧
      ((set_model_temperature (PyVal.vfloat 0) Chatbot.init).1).model_temperature =
        (PyVal.vfloat 0).toRat) ∧
    (isValueError (set_model_temperature (PyVal.vfloat 2) Chatbot.init).2 = true ∧
      (set_model_temperature (PyVal.vfloat 2) Chatbot.init).1 = Chatbot.init) ∧
    (isTypeError (set_model_temperature (PyVal.vstr "hot") Chatbot.init).2 = true ∧
      (set_model_temperature (PyVal.vstr "hot") Chatbot.init).1 = Chatbot.init) :=
  ⟨(C6_temperature_range Chatbot.init (PyVal.vfloat 1)).1 (by decide) (by decide)
      (by decide),
   (C6_temperature_range Chatbot.init (PyVal.vfloat 0)).1 (by decide) (by decide)
      (by decide),
   (C6_temperature_range Chatbot.init (PyVal.vfloat 2)).2.1 (by decide) (by decide),
   (C6_temperature_range Chatbot.init (PyVal.vstr "hot")).2.2 (by decide)⟩

/-- C7: if model or agent construction fails (a missing-field value error
from `_init_model` or an underlying construction error), the error is
propagated out of `get_response` and no half-built handle is cached: the
agent handle remains unset after the failed construction, so the next
response request retries construction from the current configuration. -/
theorem C7_no_poisoned_handle (env : Env) (cb : Chatbot) (s : String)
    (e : SaberErr) (hagent : cb.agent = Option.none)
    (hfail : (_create_agent env cb).2 = Except.error e) :
    (get_response env (GRArg.msg s) cb).2 = Except.error e ∧
    ((get_response env (GRArg.msg s) cb).1).agent = Option.none := by
  have hstate := _create_agent_state env cb
  show (_async_get_response env s cb).2 = Except.error e ∧
    ((_async_get_response env s cb).1).agent = Option.none
  unfold _async_get_response _ensure_agent
  rw [hagent]
  rcases hca : _create_agent env cb with ⟨cbA, res⟩
  rw [hca] at hfail
  simp only at hfail
  subst hfail
  have hA : (_create_agent env cb).1 = cbA := by rw [hca]
  rw [hA] at hstate
  constructor
  · rfl
  · rcases hstate with rfl | ⟨m, rfl⟩
    · exact hagent
    · exact hagent

/-- Witness for C7: a configured controller whose model construction fails;
the error propagates and the agent handle stays unset. -/
theorem C7_no_poisoned_handle_witness :
    (get_response envFail (GRArg.msg "hi") cbConfigured).2 =
      Except.error (SaberErr.externalError "boom") ∧
    ((get_response envFail (GRArg.msg "hi") cbConfigured).1).agent = Option.none :=
  C7_no_poisoned_handle envFail cbConfigured "hi" (SaberErr.externalError "boom")
    (by decide) (by decide)

/-- C8: the controller exposes `get_supported_providers()` returning the
supported provider names (the source constant `_SUPPORTED_PROVIDERS`), and
`get_supported_models_by_provider(provider)` returning the supported model
names of the source constant `_SUPPORTED_MODELS_BY_PROVIDER` for that
provider, and the empty set for every unknown provider. -/
theorem C8_supported_sets :
    get_supported_providers = SUPPORTED_PROVIDERS ∧
    (∀ p ms, (p, ms) ∈ SUPPORTED_MODELS_BY_PROVIDER →
        get_supported_models_by_provider p = ms) ∧
    (∀ p, p ∉ SUPPORTED_PROVIDERS → get_supported_models_by_provider p = []) := by
  refine ⟨rfl, ?_, ?_⟩
  · intro p ms hmem
    simp [SUPPORTED_MODELS_BY_PROVIDER] at hmem
    rcases hmem with ⟨rfl, rfl⟩ | ⟨rfl, rfl⟩ <;> rfl
  · intro p hp
    simp [SUPPORTED_PROVIDERS] at hp
    simp [get_supported_models_by_provider, SUPPORTED_MODELS_BY_PROVIDER,
      strDictGet, Ne.symm hp.1, Ne.symm hp.2]

/-- Witness for C8: a known provider gets its model list, an unknown provider
gets the empty list. -/
theorem C8_supported_sets_witness :
    get_supported_models_by_provider "openai" =
      ["gpt-4", "gpt-4-turbo", "gpt-4o", "gpt-4o-mini", "gpt-3.5-turbo"] ∧
    get_supported_models_by_provider "anthropic" = [] :=
  ⟨C8_supported_sets.2.1 "openai"
      ["gpt-4", "gpt-4-turbo", "gpt-4o", "gpt-4o-mini", "gpt-3.5-turbo"] (by decide),
   C8_supported_sets.2.2 "anthropic" (by decide)⟩

/-- C9: for every argument in the modelled value universe — including null
and providers outside the supported set — `get_api_key` returns the
no-key/unset value (`None`) rather than raising (the plain,
non-`Except` return type records that the source, a single `dict.get` with a
default, cannot raise on these hashable arguments and performs no state
mutation). -/
theorem C9_get_api_key_total (cb : Chatbot) (v : PyVal) (hreach : Reachable cb)
    (hv : v = PyVal.vnone ∨ v.isStr = false ∨
          ∃ s, v = PyVal.vstr s ∧ s ∉ SUPPORTED_PROVIDERS) :
    get_api_key v cb = PyVal.vnone := by
  have hall := stateInv_apiKeys (reachable_stateInv hreach)
  unfold get_api_key
  apply pyDictGet_default_of_no_key
  intro kv hkv
  have hok : keyEntryOk kv = true := by
    rw [List.all_eq_true] at hall
    exact hall kv hkv
  rcases kv with ⟨k1, v1⟩
  show k1 ≠ v
  cases k1 with
  | vnone => exact absurd hok (by simp [keyEntryOk])
  | vint n => exact absurd hok (by simp [keyEntryOk])
  | vfloat q => exact absurd hok (by simp [keyEntryOk])
  | vbool b => exact absurd hok (by simp [keyEntryOk])
  | vstr p =>
      cases v1 with
      | vnone => exact absurd hok (by simp [keyEntryOk])
      | vint n => exact absurd hok (by simp [keyEntryOk])
      | vfloat q => exact absurd hok (by simp [keyEntryOk])
      | vbool b => exact absurd hok (by simp [keyEntryOk])
      | vstr ks =>
          simp only [keyEntryOk, Bool.and_eq_true] at hok
          have hpsup : p ∈ SUPPORTED_PROVIDERS := by simpa using hok.1
          rcases hv with rfl | hns | ⟨s, rfl, hsup⟩
          · simp
          · intro he
            rw [← he] at hns
            simp [PyVal.isStr] at hns
          · intro he
            have hps : p = s := by simpa using he
            subst hps
            exact hsup hpsup

/-- Witness for C9: an unsupported provider and null both yield the no-key
value on a configured controller. -/
theorem C9_get_api_key_total_witness :
    get_api_key (PyVal.vstr "anthropic") cbConfigured = PyVal.vnone ∧
    get_api_key PyVal.vnone cbConfigured = PyVal.vnone :=
  ⟨C9_get_api_key_total cbConfigured (PyVal.vstr "anthropic")
     (Reachable.set_key (PyVal.vstr "google_genai") (PyVal.vstr "k")
       (Reachable.set_name (PyVal.vstr "gemini-2.5-flash")
         (Reachable.set_provider (PyVal.vstr "google_genai") Reachable.init)))
     (Or.inr (Or.inr ⟨"anthropic", rfl, by decide⟩)),
   C9_get_api_key_total cbConfigured PyVal.vnone
     (Reachable.set_key (PyVal.vstr "google_genai") (PyVal.vstr "k")
       (Reachable.set_name (PyVal.vstr "gemini-2.5-flash")
         (Reachable.set_provider (PyVal.vstr "google_genai") Reachable.init)))
     (Or.inl rfl)⟩

theorem mem_strDictGet_models {p m : String}
    (hm : m ∈ strDictGet SUPPORTED_MODELS_BY_PROVIDER p) : m ≠ "" := by
  by_cases h1 : ("openai" : String) = p
  · subst h1
    simp [SUPPORTED_MODELS_BY_PROVIDER, strDictGet] at hm
    rcases hm with rfl | rfl | rfl | rfl | rfl <;> decide
  · by_cases h2 : ("google_genai" : String) = p
    · subst h2
      simp [SUPPORTED_MODELS_BY_PROVIDER, strDictGet, h1] at hm
      rcases hm with rfl | rfl | rfl <;> decide
    · have hnil : strDictGet SUPPORTED_MODELS_BY_PROVIDER p = [] := by
        simp [SUPPORTED_MODELS_BY_PROVIDER, strDictGet, h1, h2]
      rw [hnil] at hm
      exact absurd hm (by simp)

/-- C10: for every setter of a reachable controller state, calling it with an
accepted value equal to the currently stored value is a complete no-op: the
state is returned unchanged (so every configuration field is unchanged and
the cached model and agent handles are not invalidated) and the call
succeeds. -/
theorem C10_equal_value_noop (cb : Chatbot) (h : Reachable cb) :
    set_model_provider cb.model_provider cb = (cb, Except.ok ()) ∧
    set_model_name cb.model_name cb = (cb, Except.ok ()) ∧
    set_model_temperature (PyVal.vfloat cb.model_temperature) cb =
      (cb, Except.ok ()) ∧
    set_system_message cb.system_message cb = (cb, Except.ok ()) ∧
    (∀ p k, pyDictGet cb.api_key p PyVal.vnone = k → k ≠ PyVal.vnone →
        set_api_key p k cb = (cb, Except.ok ())) := by
  have hinv := reachable_stateInv h
  refine ⟨?_, ?_, ?_, ?_, ?_⟩
  · have hpo := stateInv_providerOk hinv
    unfold set_model_provider
    have hval : (if cb.model_provider ≠ PyVal.vnone then
        _validate_model_provider cb.model_provider else Except.ok ()) =
        Except.ok () := by
      cases hpv : cb.model_provider with
      | vnone => simp
      | vstr p =>
          rw [if_pos (by simp)]
          rw [hpv] at hpo
          exact validate_provider_of_supported (by simpa [providerOk] using hpo)
      | vint n => rw [hpv] at hpo; exact absurd hpo (by simp [providerOk])
      | vfloat q => rw [hpv] at hpo; exact absurd hpo (by simp [providerOk])
      | vbool b => rw [hpv] at hpo; exact absurd hpo (by simp [providerOk])
    rw [hval]
    simp only
    rw [if_neg (by simp)]
  · have hno := stateInv_modelNameOk hinv
    unfold set_model_name
    cases hnv : cb.model_name with
    | vnone => rfl
    | vint n => simp [modelNameOk, hnv] at hno
    | vfloat q => simp [modelNameOk, hnv] at hno
    | vbool b => simp [modelNameOk, hnv] at hno
    | vstr m =>
        cases hpv : cb.model_provider with
        | vnone => simp [modelNameOk, hnv, hpv] at hno
        | vint n => simp [modelNameOk, hnv, hpv] at hno
        | vfloat q => simp [modelNameOk, hnv, hpv] at hno
        | vbool b => simp [modelNameOk, hnv, hpv] at hno
        | vstr p =>
            simp only [modelNameOk, hnv, hpv] at hno
            have hmem : m ∈ strDictGet SUPPORTED_MODELS_BY_PROVIDER p := by
              simpa using hno
            have hne : m ≠ "" := mem_strDictGet_models hmem
            rw [if_pos (by simp), if_neg (by simp), validate_string_of_ne hne]
            simp only
            rw [if_neg (by simp [pyMemStr, modelsForVal, hmem])]
            simp only
            rw [if_neg (by simp)]
  · have ht := stateInv_temperature hinv
    unfold set_model_temperature
    rw [if_neg (by simp [PyVal.isNumeric])]
    rw [if_neg (by simp [PyVal.toRat, ht.1, ht.2])]
    rw [if_neg (by simp [PyVal.toRat])]
  · obtain ⟨s, hs, hne⟩ := stateInv_systemMessage hinv
    unfold set_system_message
    rw [hs, validate_string_of_ne hne]
    simp only
    rw [if_neg (by simp)]
  · intro p k hget hkn
    have hall := stateInv_apiKeys hinv
    have hmem : (p, k) ∈ cb.api_key := by
      rw [← hget]
      exact pyDictGet_ne_default (by rw [hget]; exact hkn)
    have hok : keyEntryOk (p, k) = true := by
      rw [List.all_eq_true] at hall
      exact hall _ hmem
    cases p with
    | vnone => exact absurd hok (by simp [keyEntryOk])
    | vint n => exact absurd hok (by simp [keyEntryOk])
    | vfloat q => exact absurd hok (by simp [keyEntryOk])
    | vbool b => exact absurd hok (by simp [keyEntryOk])
    | vstr ps =>
        cases k with
        | vnone => exact absurd hok (by simp [keyEntryOk])
        | vint n => exact absurd hok (by simp [keyEntryOk])
        | vfloat q => exact absurd hok (by simp [keyEntryOk])
        | vbool b => exact absurd hok (by simp [keyEntryOk])
        | vstr ks =>
            simp only [keyEntryOk, Bool.and_eq_true] at hok
            have hks : ks ≠ "" := by simpa using hok.2
            unfold set_api_key
            rw [validate_provider_of_supported (by simpa using hok.1),
              validate_string_of_ne hks]
            simp only
            rw [if_neg (by simp [hget])]

/-- Witness for C10: re-setting the current provider and re-storing the
current API key on a configured controller are no-ops. -/
theorem C10_equal_value_noop_witness :
    set_model_provider cbConfigured.model_provider cbConfigured =
      (cbConfigured, Except.ok ()) ∧
    set_api_key (PyVal.vstr "google_genai") (PyVal.vstr "k") cbConfigured =
      (cbConfigured, Except.ok ()) :=
  ⟨(C10_equal_value_noop cbConfigured
      (Reachable.set_key (PyVal.vstr "google_genai") (PyVal.vstr "k")
        (Reachable.set_name (PyVal.vstr "gemini-2.5-flash")
          (Reachable.set_provider (PyVal.vstr "google_genai") Reachable.init)))).1,
   (C10_equal_value_noop cbConfigured
      (Reachable.set_key (PyVal.vstr "google_genai") (PyVal.vstr "k")
        (Reachable.set_name (PyVal.vstr "gemini-2.5-flash")
          (Reachable.set_provider (PyVal.vstr "google_genai") Reachable.init)))).2.2.2.2
     (PyVal.vstr "google_genai") (PyVal.vstr "k") (by decide) (by decide)⟩
